import Mathlib

/-!
# Verification of the hortuscognitor payment and reminder core

Shallow embedding of the payment-lifecycle and reminder-scheduling logic of
the course-booking repository:

* `courses/models.py` — `CoursePayment` (amount computation in `save`,
  `is_overdue`), `EmailReminder`, `StripePaymentRecord`, `Booking`,
  `Course`, `CourseSession`, `PricingTier`, `PaymentPlan`;
* `courses/views.py` — `stripe_webhook`;
* `courses/site_settings.py` — `SiteSettings` (singleton behaviour and
  `get_payment_reminder_days_list`);
* `courses/management/commands/send_payment_reminders.py`,
  `send_session_reminders.py`, `send_course_details.py` — the three
  reminder batch commands.

Money (`Decimal`) is modelled as `ℚ`, dates as integer day numbers,
timestamps as integers.  The database tables are explicit lists; the email
transport is an oracle returning `none` on success and `some msg` when the
send raises.
-/

namespace HortusCognitor

/-! ## Python string helpers

`str.strip` and `int(...)` as used by
`SiteSettings.get_payment_reminder_days_list`. -/

/-- Whitespace characters removed by Python's `str.strip()` (ASCII subset). -/
def pyIsSpace (c : Char) : Bool :=
  c = ' ' || c = '\t' || c = '\n' || c = '\r'

/-- Python `str.strip()`: drop leading and trailing whitespace. -/
def pyStrip (s : String) : String :=
  ⟨((s.data.dropWhile pyIsSpace).reverse.dropWhile pyIsSpace).reverse⟩

/-- Numeric value of a decimal digit. -/
def digitVal (c : Char) : ℕ := c.toNat - '0'.toNat

/-- Digit run of a Python integer literal after the first digit: decimal
digits with single underscores allowed between digits. -/
def pyDigitsCore : ℕ → List Char → Option ℕ
  | acc, [] => some acc
  | acc, c :: cs =>
    if c.isDigit then pyDigitsCore (10 * acc + digitVal c) cs
    else if c = '_' then
      match cs with
      | d :: cs' => if d.isDigit then pyDigitsCore (10 * acc + digitVal d) cs' else none
      | [] => none
    else none

/-- Digit part of a Python integer literal: must start with a digit. -/
def pyDigits? : List Char → Option ℕ
  | [] => none
  | c :: cs => if c.isDigit then pyDigitsCore (digitVal c) cs else none

/-- Python `int(s)` on an already-stripped string: optional sign followed by
digits (underscores permitted between digits); `none` models `ValueError`. -/
def pyInt? (s : String) : Option ℤ :=
  match s.data with
  | '-' :: rest => (pyDigits? rest).map (fun n => -(n : ℤ))
  | '+' :: rest => (pyDigits? rest).map (fun n => (n : ℤ))
  | l => (pyDigits? l).map (fun n => (n : ℤ))

/-! ## Data model (courses/models.py, courses/site_settings.py) -/

/-- `CoursePayment.STATUS_CHOICES` (models.py lines 214-220). -/
inductive PaymentStatus
  | pending
  | deposit_paid
  | fully_paid
  | overdue
  | cancelled
  deriving DecidableEq, Repr

/-- `Booking` (models.py lines 91-166), restricted to the fields the
payment and reminder core reads. -/
structure Booking where
  id : ℕ
  course_id : Option ℕ
  full_name : String
  email : String
  status : String
  deriving DecidableEq, Repr

/-- `Course` (models.py lines 9-50), restricted to the fields the reminder
commands read.  Note: the model defines *no* `end_date` field. -/
structure Course where
  id : ℕ
  title : String
  start_date : ℤ
  is_active : Bool
  deriving DecidableEq, Repr

/-- `CourseSession` (models.py lines 52-65). -/
structure CourseSession where
  id : ℕ
  course_id : ℕ
  session_number : ℕ
  date : ℤ
  start_time : ℕ
  end_time : ℕ
  deriving DecidableEq, Repr

/-- `PricingTier` (models.py lines 169-192). -/
structure PricingTier where
  tier : String
  price : ℚ
  sessions : ℕ
  deriving DecidableEq, Repr

/-- `PaymentPlan` (models.py lines 195-209).  `name` is `"full"` or
`"installment"`; both deadline fields are non-nullable `DateField`s. -/
structure PaymentPlan where
  name : String
  deposit_percentage : ℚ
  deposit_deadline : ℤ
  final_payment_deadline : ℤ
  is_active : Bool
  deriving DecidableEq, Repr

/-- `CoursePayment` (models.py lines 212-272). -/
structure CoursePayment where
  id : ℕ
  booking : Booking
  pricing_tier : PricingTier
  payment_plan : PaymentPlan
  status : PaymentStatus
  stripe_customer_id : Option String
  stripe_payment_intent_id : Option String
  total_amount : ℚ
  deposit_amount : ℚ
  final_amount : ℚ
  deposit_paid_at : Option ℤ
  final_paid_at : Option ℤ
  deriving DecidableEq, Repr

/-- `CoursePayment.save` (models.py lines 242-252): recompute the amount
split from the pricing tier and payment plan, then persist. -/
def CoursePayment.save (p : CoursePayment) : CoursePayment :=
  let total := p.pricing_tier.price
  if p.payment_plan.name = "installment" then
    let deposit := total * (p.payment_plan.deposit_percentage / 100)
    { p with total_amount := total, deposit_amount := deposit,
             final_amount := total - deposit }
  else
    { p with total_amount := total, deposit_amount := total, final_amount := 0 }

/-- `CoursePayment.is_overdue` (models.py lines 256-264), with
`timezone.now().date()` passed in as `today`. -/
def CoursePayment.is_overdue (p : CoursePayment) (today : ℤ) : Bool :=
  if p.status = PaymentStatus.pending ∧ p.payment_plan.deposit_deadline < today then
    true
  else if p.status = PaymentStatus.deposit_paid ∧ p.payment_plan.final_payment_deadline < today then
    true
  else
    false

/-- `StripePaymentRecord` (models.py lines 275-293). -/
structure StripePaymentRecord where
  course_payment_id : ℕ
  payment_type : String
  stripe_payment_intent_id : String
  amount : ℚ
  status : String
  deriving DecidableEq, Repr

/-- `EmailReminder` (models.py lines 296-359). -/
structure EmailReminder where
  course_payment_id : Option ℕ
  course_session_id : Option ℕ
  reminder_type : String
  days_before_sent : Option ℤ
  recipient_email : String
  successful : Bool
  error_message : String
  deriving DecidableEq, Repr

/-- `SiteSettings` (site_settings.py lines 4-119).  `pk` is `none` for an
unsaved instance. -/
structure SiteSettings where
  pk : Option ℕ
  booking_notification_emails : String
  payment_reminder_enabled : Bool
  payment_reminder_days_before_list : String
  course_details_enabled : Bool
  course_details_days_before : ℤ
  session_reminder_enabled : Bool
  session_reminder_days_before : ℤ
  session_reminder_per_course : String
  reminder_test_mode : Bool
  reminder_test_email : String
  deriving DecidableEq, Repr

/-- The field defaults of `SiteSettings` (site_settings.py lines 11-78). -/
def siteSettingsDefault : SiteSettings :=
  { pk := none
    booking_notification_emails := "hannah@hortuscognitor.co.uk"
    payment_reminder_enabled := true
    payment_reminder_days_before_list := "7,3,1"
    course_details_enabled := true
    course_details_days_before := 7
    session_reminder_enabled := true
    session_reminder_days_before := 1
    session_reminder_per_course := "first_only"
    reminder_test_mode := false
    reminder_test_email := "hannah@hortuscognitor.co.uk" }

/-! ## SiteSettings singleton operations (site_settings.py lines 85-98) -/

/-- `SiteSettings.save` (site_settings.py lines 85-88): force `pk = 1`, then
persist (UPDATE the pk-1 row if present, otherwise INSERT). -/
def SiteSettings.save (s : SiteSettings) (db : List SiteSettings) : List SiteSettings :=
  let s' := { s with pk := some 1 }
  if db.any (fun r => r.pk == some 1) then
    db.map (fun r => if r.pk == some 1 then s' else r)
  else
    db ++ [s']

/-- `SiteSettings.delete` (site_settings.py lines 90-92): the override is
`pass`, so the table is left untouched. -/
def SiteSettings.delete (_s : SiteSettings) (db : List SiteSettings) : List SiteSettings :=
  db

/-- `SiteSettings.load` (site_settings.py lines 94-98):
`get_or_create(pk=1)` — return the pk-1 row, creating it from the field
defaults when absent. -/
def SiteSettings.load (db : List SiteSettings) : SiteSettings × List SiteSettings :=
  match db.find? (fun r => r.pk == some 1) with
  | some r => (r, db)
  | none =>
    let obj := { siteSettingsDefault with pk := some 1 }
    (obj, db ++ [obj])

/-- Python `str.split(',')` on the underlying character list:
`"a,,b"` becomes `["a", "", "b"]` and `""` becomes `[""]`. -/
def splitCommaAux : List Char → List Char → List (List Char)
  | [], acc => [acc.reverse]
  | c :: cs, acc =>
    if c = ',' then acc.reverse :: splitCommaAux cs []
    else splitCommaAux cs (c :: acc)

/-- Python `str.split(',')`. -/
def pySplitComma (s : String) : List String :=
  (splitCommaAux s.data []).map (fun l => ⟨l⟩)

/-- `SiteSettings.get_payment_reminder_days_list` helper: the tokens of the
comma-split, individually stripped, non-empty entries
(site_settings.py line 112). -/
def pyTokens (days_str : String) : List String :=
  ((pySplitComma days_str).map pyStrip).filter (fun t => t ≠ "")

/-- Distinct values sorted in descending order:
`sorted(list(set(days_list)), reverse=True)` (site_settings.py line 114). -/
def sortDescDedup (l : List ℤ) : List ℤ :=
  List.insertionSort (· ≥ ·) l.dedup

/-- `SiteSettings.get_payment_reminder_days_list`
(site_settings.py lines 105-116).  An empty (after stripping) string and a
`ValueError` while parsing both fall back to `[7]`. -/
def SiteSettings.get_payment_reminder_days_list (s : SiteSettings) : List ℤ :=
  let days_str := pyStrip s.payment_reminder_days_before_list
  if days_str = "" then [7]
  else
    match (pyTokens days_str).mapM pyInt? with
    | some days_list => sortDescDedup days_list
    | none => [7]

/-! ## Stripe webhook (courses/views.py lines 553-638) -/

/-- A parsed Stripe event: `event.get('id')`, `event.get('type')`, and the
payment intent id of `event['data']['object']['id']`. -/
structure StripeEvent where
  id : String
  type : String
  payment_intent_id : String
  deriving DecidableEq, Repr

/-- Outcome of `stripe.Webhook.construct_event` (views.py lines 559-568):
a malformed body raises `ValueError`, a bad signature raises
`SignatureVerificationError`, otherwise an event is produced. -/
inductive WebhookPayload
  | invalidPayload
  | badSignature
  | event (e : StripeEvent)
  deriving DecidableEq, Repr

/-- The relevant persistent state read and written by the webhook view:
the `CoursePayment` and `StripePaymentRecord` tables. -/
structure WebhookState where
  payments : List CoursePayment
  stripe_records : List StripePaymentRecord
  deriving DecidableEq, Repr

/-- `StripePaymentRecord.objects.filter(stripe_payment_intent_id=...)
.first()` (views.py lines 583-585). -/
def findStripeRecord (recs : List StripePaymentRecord) (pid : String) :
    Option StripePaymentRecord :=
  recs.find? (fun r => r.stripe_payment_intent_id == pid)

/-- `CoursePayment.objects.filter(stripe_payment_intent_id=...).first()`
(views.py lines 592-594). -/
def findCoursePayment (ps : List CoursePayment) (pid : String) :
    Option CoursePayment :=
  ps.find? (fun p => p.stripe_payment_intent_id == some pid)

/-- The status update applied to a matched payment on
`payment_intent.succeeded` (views.py lines 598-603). -/
def succeededTransition (cp : CoursePayment) (now : ℤ) : CoursePayment :=
  if cp.status = PaymentStatus.pending then
    { cp with status := PaymentStatus.deposit_paid, deposit_paid_at := some now }
  else if cp.status = PaymentStatus.deposit_paid then
    { cp with status := PaymentStatus.fully_paid, final_paid_at := some now }
  else
    cp

/-- `stripe_webhook` (views.py lines 553-638).  Returns the HTTP status
code together with the updated state.  On `payment_intent.succeeded` the
handler first consults `StripePaymentRecord` for the intent id (the
idempotency check, lines 582-589) — note that this branch never *creates*
such a record — then updates the matched `CoursePayment` and calls its
`save()` (which recomputes the amount split).  `payment_intent.payment_failed`
is logged only, and any other event type is acknowledged and ignored. -/
def stripe_webhook (payload : WebhookPayload) (now : ℤ) (st : WebhookState) :
    ℕ × WebhookState :=
  match payload with
  | WebhookPayload.invalidPayload => (400, st)
  | WebhookPayload.badSignature => (400, st)
  | WebhookPayload.event e =>
    if e.type = "payment_intent.succeeded" then
      match findStripeRecord st.stripe_records e.payment_intent_id with
      | some _ => (200, st)
      | none =>
        match findCoursePayment st.payments e.payment_intent_id with
        | some cp =>
          let cp' := (succeededTransition cp now).save
          (200, { st with
                    payments := st.payments.map
                      (fun p => if p.id == cp.id then cp' else p) })
        | none => (200, st)
    else if e.type = "payment_intent.payment_failed" then
      (200, st)
    else
      (200, st)

/-! ## Payment reminder batch
(courses/management/commands/send_payment_reminders.py) -/

/-- A successfully delivered payment reminder email. -/
structure PaymentEmail where
  recipient : String
  course_payment_id : ℕ
  days : ℤ
  deriving DecidableEq, Repr

/-- Accumulated effects of a `send_payment_reminders` run. -/
structure PaymentBatchState where
  reminders : List EmailReminder
  emails : List PaymentEmail
  sent : ℕ
  skipped : ℕ
  errors : ℕ
  deriving DecidableEq, Repr

/-- The duplicate-suppression query of the payment reminder command
(send_payment_reminders.py lines 102-106): filter on
`(course_payment, reminder_type, days_before_sent)` — the `successful`
flag is *not* part of the filter. -/
def paymentReminderMatch (pid : ℕ) (days : ℤ) (r : EmailReminder) : Bool :=
  r.course_payment_id == some pid &&
  r.reminder_type == "payment_reminder" &&
  r.days_before_sent == some days

/-- One iteration of the payment loop
(send_payment_reminders.py lines 80-193) for a single payment.
`sendErr` is the email transport: `none` when `email.send` succeeds,
`some msg` when it raises.  The command's `if not final_due_date` guard
(lines 86-89) is omitted: `final_payment_deadline` is a non-nullable
`DateField` and a Python `date` is always truthy, so it cannot fire. -/
def paymentReminderStep (s : SiteSettings) (days_before_list : List ℤ)
    (today : ℤ) (dry_run force : Bool)
    (sendErr : CoursePayment → Option String)
    (acc : PaymentBatchState) (payment : CoursePayment) : PaymentBatchState :=
  let days_until_due := payment.payment_plan.final_payment_deadline - today
  if days_until_due ∈ days_before_list then
    if ¬force ∧ acc.reminders.any (paymentReminderMatch payment.id days_until_due) then
      { acc with skipped := acc.skipped + 1 }
    else
      let recipient := if s.reminder_test_mode then s.reminder_test_email
                       else payment.booking.email
      if dry_run then
        { acc with sent := acc.sent + 1 }
      else
        match sendErr payment with
        | none =>
          { acc with
              emails := acc.emails ++ [⟨recipient, payment.id, days_until_due⟩],
              reminders := acc.reminders ++
                [⟨some payment.id, none, "payment_reminder", some days_until_due,
                  recipient, true, ""⟩],
              sent := acc.sent + 1 }
        | some msg =>
          { acc with
              reminders := acc.reminders ++
                [⟨some payment.id, none, "payment_reminder", some days_until_due,
                  recipient, false, msg⟩],
              errors := acc.errors + 1 }
  else
    acc

/-- `send_payment_reminders` `Command.handle`
(send_payment_reminders.py lines 34-210).  The `payment_plan__isnull=False`
filter clause always holds (the FK is non-nullable in models.py). -/
def send_payment_reminders (s : SiteSettings) (payments : List CoursePayment)
    (reminders : List EmailReminder) (today : ℤ) (dry_run force : Bool)
    (sendErr : CoursePayment → Option String) : PaymentBatchState :=
  if ¬s.payment_reminder_enabled then ⟨reminders, [], 0, 0, 0⟩
  else if (payments.filter
      (fun p => p.deposit_paid_at.isSome && p.final_paid_at.isNone)).isEmpty then
    ⟨reminders, [], 0, 0, 0⟩
  else
    (payments.filter
        (fun p => p.deposit_paid_at.isSome && p.final_paid_at.isNone)).foldl
      (paymentReminderStep s s.get_payment_reminder_days_list today dry_run force
        sendErr)
      ⟨reminders, [], 0, 0, 0⟩

/-! ## Session reminder batch
(courses/management/commands/send_session_reminders.py) -/

/-- A successfully delivered session reminder email.  `booking_email` is the
booking's own address (the key of the suppression query), `recipient` is
where the mail actually went (the test address in test mode). -/
structure SessionEmail where
  course_session_id : ℕ
  booking_email : String
  recipient : String
  deriving DecidableEq, Repr

/-- Accumulated effects of a `send_session_reminders` run. -/
structure SessionBatchState where
  reminders : List EmailReminder
  emails : List SessionEmail
  sent : ℕ
  skipped : ℕ
  errors : ℕ
  deriving DecidableEq, Repr

/-- The duplicate-suppression query of the session reminder command
(send_session_reminders.py lines 116-121): filter on
`(course_session, reminder_type, recipient_email, days_before_sent)` —
again without any condition on `successful`. -/
def sessionReminderMatch (sid : ℕ) (bookingEmail : String) (days : ℤ)
    (r : EmailReminder) : Bool :=
  r.course_session_id == some sid &&
  r.reminder_type == "session_reminder" &&
  r.recipient_email == bookingEmail &&
  r.days_before_sent == some days

/-- `order_by('date', 'start_time')` comparison on sessions. -/
def sessionLe (a b : CourseSession) : Bool :=
  decide (a.date < b.date) ||
  (a.date == b.date && decide (a.start_time ≤ b.start_time))

/-- Ordered insert for `sortSessions`. -/
def insertSession (x : CourseSession) : List CourseSession → List CourseSession
  | [] => [x]
  | y :: ys => if sessionLe x y then x :: y :: ys else y :: insertSession x ys

/-- Sort sessions by `(date, start_time)` (`order_by('date', 'start_time')`). -/
def sortSessions : List CourseSession → List CourseSession
  | [] => []
  | x :: xs => insertSession x (sortSessions xs)

/-- Inner loop body of the session reminder command: one confirmed booking
for one session (send_session_reminders.py lines 113-193). -/
def sessionBookingStep (s : SiteSettings) (sess : CourseSession)
    (days_before : ℤ) (dry_run force : Bool)
    (sendErr : CourseSession → Booking → Option String)
    (acc : SessionBatchState) (booking : Booking) : SessionBatchState :=
  if ¬force ∧ acc.reminders.any (sessionReminderMatch sess.id booking.email days_before) then
    { acc with skipped := acc.skipped + 1 }
  else
    let recipient := if s.reminder_test_mode then s.reminder_test_email
                     else booking.email
    if dry_run then
      { acc with sent := acc.sent + 1 }
    else
      match sendErr sess booking with
      | none =>
        { acc with
            emails := acc.emails ++ [⟨sess.id, booking.email, recipient⟩],
            reminders := acc.reminders ++
              [⟨none, some sess.id, "session_reminder", some days_before,
                recipient, true, ""⟩],
            sent := acc.sent + 1 }
      | some msg =>
        { acc with
            reminders := acc.reminders ++
              [⟨none, some sess.id, "session_reminder", some days_before,
                recipient, false, msg⟩],
            errors := acc.errors + 1 }

/-- Outer loop body of the session reminder command: one target session
(send_session_reminders.py lines 82-193).  The `first_session` lookup
(line 86) orders all of the course's sessions by `(date, start_time)` and
takes the first; the `none` branch of the `match` is unreachable whenever
the processed session itself belongs to `sessions`. -/
def sessionStep (s : SiteSettings) (sessions : List CourseSession)
    (bookings : List Booking) (days_before : ℤ) (dry_run force : Bool)
    (sendErr : CourseSession → Booking → Option String)
    (acc : SessionBatchState) (sess : CourseSession) : SessionBatchState :=
  let course_sessions := sessions.filter (fun t => t.course_id == sess.course_id)
  let is_first_session :=
    match (sortSessions course_sessions).head? with
    | some fs => fs.id == sess.id
    | none => false
  if s.session_reminder_per_course == "first_only" && !is_first_session then
    { acc with skipped := acc.skipped + 1 }
  else
    let confirmed_bookings := bookings.filter
      (fun b => b.course_id == some sess.course_id && b.status == "confirmed")
    if confirmed_bookings.isEmpty then
      { acc with skipped := acc.skipped + 1 }
    else
      confirmed_bookings.foldl
        (sessionBookingStep s sess days_before dry_run force sendErr) acc

/-- `send_session_reminders` `Command.handle`
(send_session_reminders.py lines 33-210). -/
def send_session_reminders (s : SiteSettings) (sessions : List CourseSession)
    (bookings : List Booking) (reminders : List EmailReminder) (today : ℤ)
    (dry_run force : Bool)
    (sendErr : CourseSession → Booking → Option String) : SessionBatchState :=
  if ¬s.session_reminder_enabled then ⟨reminders, [], 0, 0, 0⟩
  else if (sortSessions (sessions.filter
      (fun t => t.date == today + s.session_reminder_days_before))).isEmpty then
    ⟨reminders, [], 0, 0, 0⟩
  else
    (sortSessions (sessions.filter
        (fun t => t.date == today + s.session_reminder_days_before))).foldl
      (sessionStep s sessions bookings s.session_reminder_days_before dry_run force
        sendErr)
      ⟨reminders, [], 0, 0, 0⟩

/-! ## Course details batch
(courses/management/commands/send_course_details.py) -/

/-- Accumulated effects of a `send_course_details` run. -/
structure CourseDetailsState where
  reminders : List EmailReminder
  sent : ℕ
  skipped : ℕ
  errors : ℕ
  deriving DecidableEq, Repr

/-- `send_course_details` `Command.handle`
(send_course_details.py lines 33-205).  For every starting course that has
at least one confirmed booking, line 98 evaluates `course.end_date` — but
the `Course` model (models.py lines 9-50) defines no `end_date` field, so
the attribute access raises `AttributeError` outside any `try` block and
aborts the whole run (the later suppression lookup `booking.payments`,
line 107, would equally raise: `CoursePayment.booking` declares
`related_name='payment'`).  The embedding surfaces this as `Except.error`. -/
def send_course_details (s : SiteSettings) (courses : List Course)
    (bookings : List Booking) (reminders : List EmailReminder) (today : ℤ)
    (_dry_run _force : Bool) : Except String CourseDetailsState :=
  if ¬s.course_details_enabled then Except.ok ⟨reminders, 0, 0, 0⟩
  else
    let target_date := today + s.course_details_days_before
    let starting_courses := courses.filter
      (fun c => c.start_date == target_date && c.is_active)
    if starting_courses.isEmpty then Except.ok ⟨reminders, 0, 0, 0⟩
    else
      starting_courses.foldlM
        (fun acc c =>
          let confirmed_bookings := bookings.filter
            (fun b => b.course_id == some c.id && b.status == "confirmed")
          if confirmed_bookings.isEmpty then
            Except.ok { acc with skipped := acc.skipped + 1 }
          else
            Except.error "AttributeError: Course object has no attribute end_date")
        ⟨reminders, 0, 0, 0⟩

/-! ## Counting delivered emails per suppression key -/

/-- Number of delivered payment reminder emails for the
`(course_payment, offset)` tuple. -/
def paymentEmailsFor (i : ℕ) (d : ℤ) (es : List PaymentEmail) : ℕ :=
  (es.filter (fun e => e.course_payment_id == i && e.days == d)).length

/-- Number of delivered session reminder emails for the
`(course_session, booking recipient)` pair. -/
def sessionEmailsFor (j : ℕ) (em : String) (es : List SessionEmail) : ℕ :=
  (es.filter (fun e => e.course_session_id == j && e.booking_email == em)).length

/-! ## Spec-side definition for the offset-list refinement -/

/-- Modelled from the spec: "the effective offset list used by the
payment-reminder batch is the input's distinct integer values sorted in
descending order" — applied to *every* configured days-before string, the
integer values being those of its comma-separated stripped tokens. -/
def spec_effective_offsets (raw : String) : List ℤ :=
  sortDescDedup ((pyTokens (pyStrip raw)).filterMap pyInt?)

/-! ## Concrete fixtures -/

/-- A confirmed booking for course 1. -/
def bookingEx : Booking :=
  ⟨1, some 1, "Ada Lovelace", "ada@example.com", "confirmed"⟩

/-- A pricing tier priced at £100. -/
def tierEx : PricingTier := ⟨"standard", 100, 5⟩

/-- A 50% installment plan with deposit deadline day 10 and final payment
deadline day 30. -/
def planInstallmentEx : PaymentPlan := ⟨"installment", 50, 10, 30, true⟩

/-- A pay-in-full plan. -/
def planFullEx : PaymentPlan := ⟨"full", 0, 10, 30, true⟩

/-- A pending installment payment correlated with Stripe intent `pi_1`. -/
def cpEx : CoursePayment :=
  ⟨1, bookingEx, tierEx, planInstallmentEx, PaymentStatus.pending,
   none, some "pi_1", 100, 50, 50, none, none⟩

/-- The same payment on the pay-in-full plan. -/
def cpFullEx : CoursePayment := { cpEx with payment_plan := planFullEx }

/-- Webhook state: one pending payment for `pi_1`, no Stripe records. -/
def stEx : WebhookState := ⟨[cpEx], []⟩

/-- A `payment_intent.succeeded` event for `pi_1`. -/
def evEx : StripeEvent := ⟨"evt_1", "payment_intent.succeeded", "pi_1"⟩

/-- An event of a type the webhook does not handle. -/
def evUnknownEx : StripeEvent := ⟨"evt_2", "checkout.session.completed", "pi_1"⟩

/-- An active course starting on day 7. -/
def courseEx : Course := ⟨1, "Forest Gardening", 7, true⟩

/-- A confirmed booking of `courseEx`. -/
def bookingConfirmedEx : Booking :=
  ⟨2, some 1, "Grace Hopper", "grace@example.com", "confirmed"⟩

/-- A payment plan whose final payment deadline is day 7. -/
def planC9 : PaymentPlan := ⟨"installment", 50, -5, 7, true⟩

/-- A deposit-paid payment whose final amount falls due on day 7, so a
batch run on day 0 hits the 7-days-before offset. -/
def pC9 : CoursePayment :=
  ⟨1, bookingEx, tierEx, planC9, PaymentStatus.deposit_paid,
   none, some "pi_2", 100, 50, 50, some 0, none⟩

/-- A course session on day 1 (one day ahead of a day-0 batch run). -/
def sessC9 : CourseSession := ⟨1, 1, 1, 1, 540, 660⟩

/-- An `EmailReminder` row recording a *failed* payment reminder send for
payment 1 at the 7-day offset. -/
def failedRecC9 : EmailReminder :=
  ⟨some 1, none, "payment_reminder", some 7, "ada@example.com", false, "boom"⟩

/-- An `EmailReminder` row recording a *failed* session reminder send for
session 1 at the 1-day offset. -/
def failedSessRecC9 : EmailReminder :=
  ⟨none, some 1, "session_reminder", some 1, "grace@example.com", false, "boom"⟩

/-! ## Helper lemmas about `sortDescDedup` -/

theorem mem_sortDescDedup (l : List ℤ) (x : ℤ) : x ∈ sortDescDedup l ↔ x ∈ l := by
  unfold sortDescDedup
  rw [(List.perm_insertionSort _ _).mem_iff, List.mem_dedup]

theorem pairwise_gt_sortDescDedup (l : List ℤ) :
    List.Pairwise (· > ·) (sortDescDedup l) := by
  have hs : List.Sorted (· ≥ ·) (sortDescDedup l) :=
    List.sorted_insertionSort _ _
  have hn : (sortDescDedup l).Nodup :=
    (List.perm_insertionSort _ _).nodup_iff.mpr l.nodup_dedup
  exact (hs.and hn).imp (fun h => lt_of_le_of_ne h.1 (Ne.symm h.2))

/-! ## Claim theorems -/

/-- C2: after `CoursePayment.save` (creation or update),
`deposit_amount + final_amount = total_amount`; and when the payment plan
is the `full` plan, `deposit_amount = total_amount` and `final_amount = 0`. -/
theorem c2_amount_split_invariant (p : CoursePayment) :
    (CoursePayment.save p).deposit_amount + (CoursePayment.save p).final_amount
      = (CoursePayment.save p).total_amount ∧
    (p.payment_plan.name = "full" →
      (CoursePayment.save p).deposit_amount = (CoursePayment.save p).total_amount ∧
      (CoursePayment.save p).final_amount = 0) := by
  constructor
  · unfold CoursePayment.save
    by_cases h : p.payment_plan.name = "installment"
    · rw [if_pos h]; dsimp only; ring
    · rw [if_neg h]; dsimp only; ring
  · intro hfull
    have h : p.payment_plan.name ≠ "installment" := by
      rw [hfull]; decide
    simp [CoursePayment.save, h]

/-- C2 witness: the invariant instantiated at a concrete pay-in-full
payment. -/
theorem c2_amount_split_witness :
    (CoursePayment.save cpFullEx).deposit_amount
        = (CoursePayment.save cpFullEx).total_amount ∧
    (CoursePayment.save cpFullEx).final_amount = 0 :=
  (c2_amount_split_invariant cpFullEx).2 rfl

/-- C7: `is_overdue` is true iff the payment is still `pending` past the
plan's deposit deadline or `deposit_paid` past the plan's final payment
deadline; under every other status it is false. -/
theorem c7_is_overdue_iff (p : CoursePayment) (today : ℤ) :
    (p.is_overdue today = true ↔
      (p.status = PaymentStatus.pending ∧
        p.payment_plan.deposit_deadline < today) ∨
      (p.status = PaymentStatus.deposit_paid ∧
        p.payment_plan.final_payment_deadline < today)) ∧
    ({ p with status := PaymentStatus.fully_paid }.is_overdue today = false) ∧
    ({ p with status := PaymentStatus.overdue }.is_overdue today = false) ∧
    ({ p with status := PaymentStatus.cancelled }.is_overdue today = false) := by
  refine ⟨?_, by simp [CoursePayment.is_overdue], by simp [CoursePayment.is_overdue],
      by simp [CoursePayment.is_overdue]⟩
  unfold CoursePayment.is_overdue
  split
  · next h => simp [h]
  · next h =>
    split
    · next h2 => simp [h2, h]
    · next h2 =>
      simp only [Bool.false_eq_true, false_iff]
      intro hcase
      rcases hcase with hc | hc
      · exact h hc
      · exact h2 hc

/-- C8: the webhook endpoint answers 400 and leaves the state untouched
when the body is malformed or the signature cannot be verified, and
answers 200 with no state change for events of any unhandled type. -/
theorem c8_webhook_rejects_and_ignores (st : WebhookState) (t : ℤ)
    (e : StripeEvent)
    (h1 : e.type ≠ "payment_intent.succeeded")
    (h2 : e.type ≠ "payment_intent.payment_failed") :
    stripe_webhook WebhookPayload.invalidPayload t st = (400, st) ∧
    stripe_webhook WebhookPayload.badSignature t st = (400, st) ∧
    stripe_webhook (WebhookPayload.event e) t st = (200, st) := by
  refine ⟨rfl, rfl, ?_⟩
  simp [stripe_webhook, h1, h2]

/-- C8 witness: instantiated at the one-payment state and a
`checkout.session.completed` event. -/
theorem c8_webhook_witness :
    stripe_webhook WebhookPayload.invalidPayload 0 stEx = (400, stEx) ∧
    stripe_webhook WebhookPayload.badSignature 0 stEx = (400, stEx) ∧
    stripe_webhook (WebhookPayload.event evUnknownEx) 0 stEx = (200, stEx) :=
  c8_webhook_rejects_and_ignores stEx 0 evUnknownEx (by decide) (by decide)

/-- C3: on a `payment_intent.succeeded` event matched to a course payment
(no Stripe record yet for the intent id), the webhook stores the
transitioned payment; the transition sends `pending` to `deposit_paid`
stamping `deposit_paid_at`, `deposit_paid` to `fully_paid` stamping
`final_paid_at`, and leaves every other status unchanged. -/
theorem c3_succeeded_transition_rule (st : WebhookState) (e : StripeEvent)
    (cp : CoursePayment) (t : ℤ)
    (ht : e.type = "payment_intent.succeeded")
    (hr : findStripeRecord st.stripe_records e.payment_intent_id = none)
    (hp : findCoursePayment st.payments e.payment_intent_id = some cp) :
    stripe_webhook (WebhookPayload.event e) t st =
      (200, { st with payments := (st.payments.map
        (fun p => if p.id == cp.id then (succeededTransition cp t).save else p)) }) ∧
    (cp.status = PaymentStatus.pending →
      (succeededTransition cp t).status = PaymentStatus.deposit_paid ∧
      (succeededTransition cp t).deposit_paid_at = some t) ∧
    (cp.status = PaymentStatus.deposit_paid →
      (succeededTransition cp t).status = PaymentStatus.fully_paid ∧
      (succeededTransition cp t).final_paid_at = some t) ∧
    (cp.status ≠ PaymentStatus.pending → cp.status ≠ PaymentStatus.deposit_paid →
      succeededTransition cp t = cp) := by
  refine ⟨?_, ?_, ?_, ?_⟩
  · simp [stripe_webhook, ht, hr, hp]
  · intro h; simp [succeededTransition, h]
  · intro h; simp [succeededTransition, h]
  · intro hp1 hp2; simp [succeededTransition, hp1, hp2]

/-- C3 witness: the transition rule applied to the concrete pending
payment `cpEx` at time 5. -/
theorem c3_succeeded_transition_witness :
    (succeededTransition cpEx 5).status = PaymentStatus.deposit_paid ∧
    (succeededTransition cpEx 5).deposit_paid_at = some 5 :=
  (c3_succeeded_transition_rule stEx evEx cpEx 5 rfl rfl (by decide)).2.1 rfl

/-- C1 (code bug): delivering the same `payment_intent.succeeded` event for
intent `pi_1` twice, starting from a pending payment and an empty
`StripePaymentRecord` table, performs *two* status transitions — the
webhook never creates the `StripePaymentRecord` its own idempotency check
looks for, so the second delivery moves `deposit_paid` on to `fully_paid`
while still reporting 200. -/
theorem c1_webhook_replay_double_transition :
    ((stripe_webhook (WebhookPayload.event evEx) 10 stEx).2.payments.map
        (fun p => p.status) = [PaymentStatus.deposit_paid]) ∧
    ((stripe_webhook (WebhookPayload.event evEx) 20
        (stripe_webhook (WebhookPayload.event evEx) 10 stEx).2).2.payments.map
        (fun p => p.status) = [PaymentStatus.fully_paid]) ∧
    ((stripe_webhook (WebhookPayload.event evEx) 20
        (stripe_webhook (WebhookPayload.event evEx) 10 stEx).2).1 = 200) := by
  decide

/-- C6 (code bug): with course-details reminders enabled and offset 7, a
run on day 0 selects the active course starting on day 7; because that
course has a confirmed booking, the command evaluates `course.end_date`,
an attribute the `Course` model does not define, and aborts with
`AttributeError` before emailing anyone. -/
theorem c6_course_details_crash :
    send_course_details siteSettingsDefault [courseEx] [bookingConfirmedEx]
        [] 0 false false
      = Except.error "AttributeError: Course object has no attribute end_date" :=
  rfl

/-- C5 counterexample: for the configured days-before string `"abc"` the
code's effective offset list is the fallback `[7]`, not the input's
(empty) list of distinct integer values sorted descending. -/
theorem c5_offsets_counterexample :
    SiteSettings.get_payment_reminder_days_list
        { siteSettingsDefault with payment_reminder_days_before_list := "abc" }
      = [7] ∧
    spec_effective_offsets "abc" = [] ∧
    SiteSettings.get_payment_reminder_days_list
        { siteSettingsDefault with payment_reminder_days_before_list := "abc" }
      ≠ spec_effective_offsets "abc" := by
  refine ⟨by decide, by decide, by decide⟩

/-- C5 (amended): whenever the configured string is non-empty after
stripping and all of its comma-separated stripped tokens parse as
integers, the effective offset list is exactly the distinct parsed values
sorted in strictly descending order (otherwise the code falls back to
`[7]`); in particular the input `"7,7,3,3,1"` yields `[7, 3, 1]`. -/
theorem c5_offsets_distinct_descending (s : SiteSettings) (vals : List ℤ)
    (hne : pyStrip s.payment_reminder_days_before_list ≠ "")
    (hp : (pyTokens (pyStrip s.payment_reminder_days_before_list)).mapM pyInt?
        = some vals) :
    s.get_payment_reminder_days_list = sortDescDedup vals ∧
    List.Pairwise (· > ·) s.get_payment_reminder_days_list ∧
    (∀ x : ℤ, x ∈ s.get_payment_reminder_days_list ↔ x ∈ vals) ∧
    SiteSettings.get_payment_reminder_days_list
      { s with payment_reminder_days_before_list := "7,7,3,3,1" } = [7, 3, 1] := by
  have h1 : s.get_payment_reminder_days_list = sortDescDedup vals := by
    unfold SiteSettings.get_payment_reminder_days_list
    rw [if_neg hne, hp]
  refine ⟨h1, ?_, ?_, ?_⟩
  · rw [h1]; exact pairwise_gt_sortDescDedup vals
  · intro x; rw [h1]; exact mem_sortDescDedup vals x
  · rfl

/-- C5 witness: the amended statement instantiated at the default
configuration string `"7,3,1"`. -/
theorem c5_offsets_witness :
    SiteSettings.get_payment_reminder_days_list siteSettingsDefault
      = sortDescDedup [7, 3, 1] :=
  (c5_offsets_distinct_descending siteSettingsDefault [7, 3, 1] (by decide)
    (by decide)).1

/-! ## Behaviour of one payment-reminder iteration (force off) -/

/-- Complete case analysis of `paymentReminderStep` when the force flag is
off: the payment is either out of schedule (no-op), suppressed by an
existing matching reminder row, counted in dry-run mode, delivered and
recorded as successful, or recorded as failed. -/
theorem paymentReminderStep_spec (s : SiteSettings) (dl : List ℤ) (today : ℤ)
    (dry : Bool) (send : CoursePayment → Option String)
    (acc : PaymentBatchState) (p : CoursePayment) :
    (p.payment_plan.final_payment_deadline - today ∉ dl ∧
      paymentReminderStep s dl today dry false send acc p = acc) ∨
    (p.payment_plan.final_payment_deadline - today ∈ dl ∧
      acc.reminders.any
        (paymentReminderMatch p.id (p.payment_plan.final_payment_deadline - today)) = true ∧
      paymentReminderStep s dl today dry false send acc p
        = { acc with skipped := acc.skipped + 1 }) ∨
    (p.payment_plan.final_payment_deadline - today ∈ dl ∧
      acc.reminders.any
        (paymentReminderMatch p.id (p.payment_plan.final_payment_deadline - today)) = false ∧
      ((dry = true ∧ paymentReminderStep s dl today dry false send acc p
          = { acc with sent := acc.sent + 1 }) ∨
       (dry = false ∧ send p = none ∧
        paymentReminderStep s dl today dry false send acc p
          = { acc with
              emails := acc.emails ++
                [⟨(if s.reminder_test_mode then s.reminder_test_email
                   else p.booking.email), p.id,
                  p.payment_plan.final_payment_deadline - today⟩],
              reminders := acc.reminders ++
                [⟨some p.id, none, "payment_reminder",
                  some (p.payment_plan.final_payment_deadline - today),
                  (if s.reminder_test_mode then s.reminder_test_email
                   else p.booking.email), true, ""⟩],
              sent := acc.sent + 1 }) ∨
       (dry = false ∧ ∃ msg, send p = some msg ∧
        paymentReminderStep s dl today dry false send acc p
          = { acc with
              reminders := acc.reminders ++
                [⟨some p.id, none, "payment_reminder",
                  some (p.payment_plan.final_payment_deadline - today),
                  (if s.reminder_test_mode then s.reminder_test_email
                   else p.booking.email), false, msg⟩],
              errors := acc.errors + 1 }))) := by
  unfold paymentReminderStep
  by_cases hdue : p.payment_plan.final_payment_deadline - today ∈ dl
  · rw [if_pos hdue]
    by_cases hany : acc.reminders.any
        (paymentReminderMatch p.id (p.payment_plan.final_payment_deadline - today)) = true
    · rw [if_pos ⟨by simp, hany⟩]
      exact Or.inr (Or.inl ⟨hdue, hany, rfl⟩)
    · have hanyf : acc.reminders.any
          (paymentReminderMatch p.id (p.payment_plan.final_payment_deadline - today)) = false := by
        revert hany
        cases acc.reminders.any
          (paymentReminderMatch p.id (p.payment_plan.final_payment_deadline - today)) <;> simp
      rw [if_neg (fun hc => hany hc.2)]
      by_cases hdry : dry = true
      · rw [if_pos hdry]
        exact Or.inr (Or.inr ⟨hdue, hanyf, Or.inl ⟨hdry, rfl⟩⟩)
      · have hdryf : dry = false := by revert hdry; cases dry <;> simp
        rw [if_neg hdry]
        cases hsend : send p with
        | none =>
          simp only [hsend]
          exact Or.inr (Or.inr ⟨hdue, hanyf, Or.inr (Or.inl ⟨hdryf, trivial, trivial⟩)⟩)
        | some msg =>
          simp only [hsend]
          exact Or.inr (Or.inr ⟨hdue, hanyf, Or.inr (Or.inr ⟨hdryf, msg, rfl, rfl⟩)⟩)
  · rw [if_neg hdue]
    exact Or.inl ⟨hdue, rfl⟩

/-- A payment-reminder iteration only ever appends to the `EmailReminder`
table. -/
theorem paymentReminderStep_mono (s : SiteSettings) (dl : List ℤ) (today : ℤ)
    (dry : Bool) (send : CoursePayment → Option String)
    (acc : PaymentBatchState) (p : CoursePayment) (r : EmailReminder)
    (hr : r ∈ acc.reminders) :
    r ∈ (paymentReminderStep s dl today dry false send acc p).reminders := by
  rcases paymentReminderStep_spec s dl today dry send acc p with
    ⟨_, he⟩ | ⟨_, _, he⟩ | ⟨_, _, ⟨_, he⟩ | ⟨_, _, he⟩ | ⟨_, _, _, he⟩⟩
  · rw [he]; exact hr
  · rw [he]; exact hr
  · rw [he]; exact hr
  · rw [he]; exact List.mem_append_left _ hr
  · rw [he]; exact List.mem_append_left _ hr

/-- Folding the payment-reminder iteration only ever appends to the
`EmailReminder` table. -/
theorem paymentReminderFold_mono (s : SiteSettings) (dl : List ℤ) (today : ℤ)
    (dry : Bool) (send : CoursePayment → Option String) :
    ∀ (L : List CoursePayment) (acc : PaymentBatchState) (r : EmailReminder),
      r ∈ acc.reminders →
      r ∈ (L.foldl (paymentReminderStep s dl today dry false send) acc).reminders := by
  intro L
  induction L with
  | nil => intro acc r hr; exact hr
  | cons p L ih =>
    intro acc r hr
    rw [List.foldl_cons]
    exact ih _ r (paymentReminderStep_mono s dl today dry send acc p r hr)

/-- After a non-dry payment-reminder run, every payment of the worked list
that was due at a configured offset has a matching `EmailReminder` row —
whether the send succeeded, failed, or was already suppressed. -/
theorem paymentReminderFold_covers (s : SiteSettings) (dl : List ℤ)
    (today : ℤ) (send : CoursePayment → Option String) :
    ∀ (L : List CoursePayment) (acc : PaymentBatchState) (p : CoursePayment),
      p ∈ L → p.payment_plan.final_payment_deadline - today ∈ dl →
      ∃ r ∈ (L.foldl (paymentReminderStep s dl today false false send) acc).reminders,
        paymentReminderMatch p.id (p.payment_plan.final_payment_deadline - today) r
          = true := by
  intro L
  induction L with
  | nil => intro acc p hp _; cases hp
  | cons q L ih =>
    intro acc p hp hdue
    rw [List.foldl_cons]
    rcases List.mem_cons.mp hp with heq | hmem
    · subst heq
      have hstep : ∃ r ∈ (paymentReminderStep s dl today false false send acc p).reminders,
          paymentReminderMatch p.id (p.payment_plan.final_payment_deadline - today) r
            = true := by
        rcases paymentReminderStep_spec s dl today false send acc p with
          ⟨hnd, _⟩ | ⟨_, hany, he⟩ | ⟨_, _, ⟨hdry, _⟩ | ⟨_, _, he⟩ | ⟨_, msg, _, he⟩⟩
        · exact absurd hdue hnd
        · rw [he]
          rcases List.any_eq_true.mp hany with ⟨r, hrm, hrmatch⟩
          exact ⟨r, hrm, hrmatch⟩
        · exact absurd hdry (by simp)
        · rw [he]
          refine ⟨_, List.mem_append_right _ (List.mem_singleton_self _), ?_⟩
          simp [paymentReminderMatch]
        · rw [he]
          refine ⟨_, List.mem_append_right _ (List.mem_singleton_self _), ?_⟩
          simp [paymentReminderMatch]
      rcases hstep with ⟨r, hrm, hmatch⟩
      exact ⟨r, paymentReminderFold_mono s dl today false send L _ r hrm, hmatch⟩
    · exact ih _ p hmem hdue

/-- When every due payment of the worked list already has a matching
`EmailReminder` row, a non-force run changes nothing except the skip
counter: no email, no new row, no send. -/
theorem paymentReminderFold_allskip (s : SiteSettings) (dl : List ℤ)
    (today : ℤ) (dry : Bool) (send : CoursePayment → Option String) :
    ∀ (L : List CoursePayment) (acc : PaymentBatchState),
      (∀ p ∈ L, p.payment_plan.final_payment_deadline - today ∈ dl →
        acc.reminders.any
          (paymentReminderMatch p.id (p.payment_plan.final_payment_deadline - today))
          = true) →
      (L.foldl (paymentReminderStep s dl today dry false send) acc).reminders
          = acc.reminders ∧
      (L.foldl (paymentReminderStep s dl today dry false send) acc).emails
          = acc.emails ∧
      (L.foldl (paymentReminderStep s dl today dry false send) acc).sent
          = acc.sent := by
  intro L
  induction L with
  | nil => intro acc _; exact ⟨rfl, rfl, rfl⟩
  | cons p L ih =>
    intro acc hcover
    rw [List.foldl_cons]
    have hstep : (paymentReminderStep s dl today dry false send acc p).reminders
          = acc.reminders ∧
        (paymentReminderStep s dl today dry false send acc p).emails = acc.emails ∧
        (paymentReminderStep s dl today dry false send acc p).sent = acc.sent := by
      rcases paymentReminderStep_spec s dl today dry send acc p with
        ⟨_, he⟩ | ⟨_, _, he⟩ | ⟨hdue2, hanyf, _⟩
      · rw [he]; exact ⟨rfl, rfl, rfl⟩
      · rw [he]; exact ⟨rfl, rfl, rfl⟩
      · have := hcover p (List.mem_cons_self p L) hdue2
        rw [hanyf] at this
        cases this
    obtain ⟨h1, h2, h3⟩ := hstep
    have hcover' : ∀ q ∈ L, q.payment_plan.final_payment_deadline - today ∈ dl →
        (paymentReminderStep s dl today dry false send acc p).reminders.any
          (paymentReminderMatch q.id (q.payment_plan.final_payment_deadline - today))
          = true := by
      intro q hq hdq
      rw [h1]
      exact hcover q (List.mem_cons_of_mem _ hq) hdq
    obtain ⟨g1, g2, g3⟩ := ih _ hcover'
    exact ⟨g1.trans h1, g2.trans h2, g3.trans h3⟩

/-- Counting presses through a one-element append. -/
theorem paymentEmailsFor_append_one (i : ℕ) (d : ℤ) (es : List PaymentEmail)
    (e : PaymentEmail) :
    paymentEmailsFor i d (es ++ [e]) =
      paymentEmailsFor i d es +
        (if (e.course_payment_id == i && e.days == d) = true then 1 else 0) := by
  unfold paymentEmailsFor
  rw [List.filter_append, List.length_append]
  congr 1
  by_cases hpe : (e.course_payment_id == i && e.days == d) = true <;>
    simp [List.filter, hpe]

/-- A non-dry, non-force payment-reminder fold delivers at most one email
per `(course_payment, offset)` key, provided the accumulator already
satisfies that bound and every delivered email is backed by a matching
reminder row. -/
theorem paymentReminderFold_key_once (s : SiteSettings) (dl : List ℤ)
    (today : ℤ) (send : CoursePayment → Option String) :
    ∀ (L : List CoursePayment) (acc : PaymentBatchState),
      (∀ i d, paymentEmailsFor i d acc.emails ≤ 1) →
      (∀ i d, 1 ≤ paymentEmailsFor i d acc.emails →
        ∃ r ∈ acc.reminders, paymentReminderMatch i d r = true) →
      ∀ i d, paymentEmailsFor i d
        (L.foldl (paymentReminderStep s dl today false false send) acc).emails
        ≤ 1 := by
  intro L
  induction L with
  | nil => intro acc h1 _ i d; exact h1 i d
  | cons p L ih =>
    intro acc h1 h2 i d
    rw [List.foldl_cons]
    rcases paymentReminderStep_spec s dl today false send acc p with
      ⟨_, he⟩ | ⟨_, _, he⟩ | ⟨_, hanyf, ⟨hdry, _⟩ | ⟨_, _, he⟩ | ⟨_, msg, _, he⟩⟩
    · rw [he]; exact ih acc h1 h2 i d
    · rw [he]
      exact ih { acc with skipped := acc.skipped + 1 } h1 h2 i d
    · exact absurd hdry (by simp)
    · rw [he]
      refine ih _ ?_ ?_ i d
      · intro i' d'
        rw [paymentEmailsFor_append_one]
        by_cases hkey :
            ((p.id : ℕ) == i' &&
              (p.payment_plan.final_payment_deadline - today) == d') = true
        · simp only [Bool.and_eq_true, beq_iff_eq] at hkey
          obtain ⟨hi, hd⟩ := hkey
          subst hi; subst hd
          have h0 : paymentEmailsFor p.id
              (p.payment_plan.final_payment_deadline - today) acc.emails = 0 := by
            by_contra hne
            rcases h2 _ _ (Nat.one_le_iff_ne_zero.mpr hne) with ⟨r, hrm, hmatch⟩
            have : acc.reminders.any
                (paymentReminderMatch p.id
                  (p.payment_plan.final_payment_deadline - today)) = true :=
              List.any_eq_true.mpr ⟨r, hrm, hmatch⟩
            rw [hanyf] at this
            cases this
          rw [h0]
          split <;> simp
        · rw [if_neg (by simpa using hkey)]
          simpa using h1 i' d'
      · intro i' d' hge
        rw [paymentEmailsFor_append_one] at hge
        by_cases hkey :
            ((p.id : ℕ) == i' &&
              (p.payment_plan.final_payment_deadline - today) == d') = true
        · simp only [Bool.and_eq_true, beq_iff_eq] at hkey
          obtain ⟨hi, hd⟩ := hkey
          subst hi; subst hd
          refine ⟨_, List.mem_append_right _ (List.mem_singleton_self _), ?_⟩
          simp [paymentReminderMatch]
        · rw [if_neg (by simpa using hkey), Nat.add_zero] at hge
          rcases h2 i' d' hge with ⟨r, hrm, hmatch⟩
          exact ⟨r, List.mem_append_left _ hrm, hmatch⟩
    · rw [he]
      refine ih _ ?_ ?_ i d
      · intro i' d'; exact h1 i' d'
      · intro i' d' hge
        rcases h2 i' d' hge with ⟨r, hrm, hmatch⟩
        exact ⟨r, List.mem_append_left _ hrm, hmatch⟩

/-- Once a matching reminder row exists in the accumulator, a non-force
payment-reminder fold delivers no further email for that
`(course_payment, offset)` key. -/
theorem paymentReminderFold_nokey (s : SiteSettings) (dl : List ℤ)
    (today : ℤ) (dry : Bool) (send : CoursePayment → Option String) :
    ∀ (L : List CoursePayment) (acc : PaymentBatchState) (i : ℕ) (d : ℤ)
      (r : EmailReminder),
      r ∈ acc.reminders → paymentReminderMatch i d r = true →
      paymentEmailsFor i d
        (L.foldl (paymentReminderStep s dl today dry false send) acc).emails
        = paymentEmailsFor i d acc.emails := by
  intro L
  induction L with
  | nil => intro acc i d r _ _; rfl
  | cons p L ih =>
    intro acc i d r hr hm
    rw [List.foldl_cons]
    rcases paymentReminderStep_spec s dl today dry send acc p with
      ⟨_, he⟩ | ⟨_, _, he⟩ | ⟨_, hanyf, ⟨_, he⟩ | ⟨_, _, he⟩ | ⟨_, msg, _, he⟩⟩
    · rw [he]; exact ih acc i d r hr hm
    · rw [he]; exact ih { acc with skipped := acc.skipped + 1 } i d r hr hm
    · rw [he]; exact ih { acc with sent := acc.sent + 1 } i d r hr hm
    · rw [he]
      have hkey : ¬(((p.id : ℕ) == i &&
          (p.payment_plan.final_payment_deadline - today) == d) = true) := by
        intro hkey
        simp only [Bool.and_eq_true, beq_iff_eq] at hkey
        obtain ⟨hi, hd⟩ := hkey
        subst hi; subst hd
        have : acc.reminders.any
            (paymentReminderMatch p.id
              (p.payment_plan.final_payment_deadline - today)) = true :=
          List.any_eq_true.mpr ⟨r, hr, hm⟩
        rw [hanyf] at this
        cases this
      refine Eq.trans (ih _ i d r ?_ hm) ?_
      · exact List.mem_append_left _ hr
      · dsimp only
        rw [paymentEmailsFor_append_one, if_neg (by simpa using hkey),
          Nat.add_zero]
    · rw [he]
      refine Eq.trans (ih _ i d r ?_ hm) ?_
      · exact List.mem_append_left _ hr
      · rfl

/-- Batch-level coverage: after a non-dry, non-force run with reminders
enabled, every scheduled payment has a matching reminder row. -/
theorem send_payment_reminders_covers (s : SiteSettings)
    (payments : List CoursePayment) (rem0 : List EmailReminder) (today : ℤ)
    (send : CoursePayment → Option String)
    (hen : s.payment_reminder_enabled = true) :
    ∀ p ∈ payments.filter
        (fun p => p.deposit_paid_at.isSome && p.final_paid_at.isNone),
      p.payment_plan.final_payment_deadline - today
          ∈ s.get_payment_reminder_days_list →
      ∃ r ∈ (send_payment_reminders s payments rem0 today false false send).reminders,
        paymentReminderMatch p.id (p.payment_plan.final_payment_deadline - today) r
          = true := by
  intro p hp hdue
  unfold send_payment_reminders
  rw [if_neg (not_not_intro hen)]
  by_cases hemp : (payments.filter
      (fun p => p.deposit_paid_at.isSome && p.final_paid_at.isNone)).isEmpty = true
  · rw [List.isEmpty_iff.mp hemp] at hp
    cases hp
  · rw [if_neg hemp]
    exact paymentReminderFold_covers s _ today send _ _ p hp hdue

/-- Batch-level skip: when every scheduled payment already has a matching
reminder row, a non-force run writes nothing, sends nothing, and counts
zero sends. -/
theorem send_payment_reminders_allskip (s : SiteSettings)
    (payments : List CoursePayment) (rem0 : List EmailReminder) (today : ℤ)
    (dry : Bool) (send : CoursePayment → Option String)
    (hcov : ∀ p ∈ payments.filter
        (fun p => p.deposit_paid_at.isSome && p.final_paid_at.isNone),
      p.payment_plan.final_payment_deadline - today
          ∈ s.get_payment_reminder_days_list →
      rem0.any
        (paymentReminderMatch p.id (p.payment_plan.final_payment_deadline - today))
        = true) :
    (send_payment_reminders s payments rem0 today dry false send).reminders = rem0 ∧
    (send_payment_reminders s payments rem0 today dry false send).emails = [] ∧
    (send_payment_reminders s payments rem0 today dry false send).sent = 0 := by
  unfold send_payment_reminders
  by_cases hen : s.payment_reminder_enabled = true
  · rw [if_neg (not_not_intro hen)]
    by_cases hemp : (payments.filter
        (fun p => p.deposit_paid_at.isSome && p.final_paid_at.isNone)).isEmpty = true
    · rw [if_pos hemp]
      exact ⟨rfl, rfl, rfl⟩
    · rw [if_neg hemp]
      exact paymentReminderFold_allskip s _ today dry send _ ⟨rem0, [], 0, 0, 0⟩ hcov
  · rw [if_pos hen]
    exact ⟨rfl, rfl, rfl⟩

/-- Batch-level suppression: a reminder row matching the
`(course_payment, offset)` key — successful or not — stops every non-force
run from emailing that key. -/
theorem send_payment_reminders_nokey (s : SiteSettings)
    (payments : List CoursePayment) (rem0 : List EmailReminder) (today : ℤ)
    (dry : Bool) (send : CoursePayment → Option String) (i : ℕ) (d : ℤ)
    (r : EmailReminder) (hr : r ∈ rem0)
    (hm : paymentReminderMatch i d r = true) :
    paymentEmailsFor i d
      (send_payment_reminders s payments rem0 today dry false send).emails = 0 := by
  unfold send_payment_reminders
  by_cases hen : s.payment_reminder_enabled = true
  · rw [if_neg (not_not_intro hen)]
    by_cases hemp : (payments.filter
        (fun p => p.deposit_paid_at.isSome && p.final_paid_at.isNone)).isEmpty = true
    · rw [if_pos hemp]; rfl
    · rw [if_neg hemp]
      exact paymentReminderFold_nokey s _ today dry send _ ⟨rem0, [], 0, 0, 0⟩
        i d r hr hm
  · rw [if_pos hen]; rfl

/-- C4: running the payment-reminder batch twice on the same day without
the force flag sends nothing on the second run — every due payment is
skipped because the first run left a matching `EmailReminder` row — and
across both runs at most one email goes out per
`(payment, payment_reminder, offset)` tuple. -/
theorem c4_payment_reminder_second_run_skips (s : SiteSettings)
    (payments : List CoursePayment) (reminders0 : List EmailReminder)
    (today : ℤ) (send1 send2 : CoursePayment → Option String) :
    (send_payment_reminders s payments
        (send_payment_reminders s payments reminders0 today false false send1).reminders
        today false false send2).emails = [] ∧
    (send_payment_reminders s payments
        (send_payment_reminders s payments reminders0 today false false send1).reminders
        today false false send2).reminders
      = (send_payment_reminders s payments reminders0 today false false send1).reminders ∧
    (send_payment_reminders s payments
        (send_payment_reminders s payments reminders0 today false false send1).reminders
        today false false send2).sent = 0 ∧
    ∀ i d, paymentEmailsFor i d
        ((send_payment_reminders s payments reminders0 today false false send1).emails ++
         (send_payment_reminders s payments
            (send_payment_reminders s payments reminders0 today false false send1).reminders
            today false false send2).emails) ≤ 1 := by
  by_cases hen : s.payment_reminder_enabled = true
  · have hcov : ∀ p ∈ payments.filter
        (fun p => p.deposit_paid_at.isSome && p.final_paid_at.isNone),
        p.payment_plan.final_payment_deadline - today
            ∈ s.get_payment_reminder_days_list →
        (send_payment_reminders s payments reminders0 today false false send1).reminders.any
          (paymentReminderMatch p.id (p.payment_plan.final_payment_deadline - today))
          = true := by
      intro p hp hdue
      rcases send_payment_reminders_covers s payments reminders0 today send1 hen
          p hp hdue with ⟨r, hrm, hmatch⟩
      exact List.any_eq_true.mpr ⟨r, hrm, hmatch⟩
    obtain ⟨h1, h2, h3⟩ := send_payment_reminders_allskip s payments
      (send_payment_reminders s payments reminders0 today false false send1).reminders
      today false send2 hcov
    refine ⟨h2, h1, h3, ?_⟩
    intro i d
    rw [h2, List.append_nil]
    unfold send_payment_reminders
    rw [if_neg (not_not_intro hen)]
    by_cases hemp : (payments.filter
        (fun p => p.deposit_paid_at.isSome && p.final_paid_at.isNone)).isEmpty = true
    · rw [if_pos hemp]
      simp [paymentEmailsFor]
    · rw [if_neg hemp]
      refine paymentReminderFold_key_once s _ today send1 _ ⟨reminders0, [], 0, 0, 0⟩
        ?_ ?_ i d
      · intro i' d'
        simp [paymentEmailsFor]
      · intro i' d' hge
        simp [paymentEmailsFor] at hge
  · have hdis : ∀ (rem : List EmailReminder) (send : CoursePayment → Option String),
        send_payment_reminders s payments rem today false false send
          = ⟨rem, [], 0, 0, 0⟩ := by
      intro rem send
      unfold send_payment_reminders
      rw [if_pos hen]
    simp only [hdis]
    refine ⟨trivial, trivial, trivial, ?_⟩
    intro i d
    simp [paymentEmailsFor]

/-! ## Behaviour of the session-reminder batch (force off) -/

/-- Complete case analysis of `sessionBookingStep` when the force flag is
off: the booking is either suppressed by an existing matching reminder
row, counted in dry-run mode, delivered and recorded as successful, or
recorded as failed. -/
theorem sessionBookingStep_spec (s : SiteSettings) (sess : CourseSession)
    (days : ℤ) (dry : Bool) (send : CourseSession → Booking → Option String)
    (acc : SessionBatchState) (b : Booking) :
    (acc.reminders.any (sessionReminderMatch sess.id b.email days) = true ∧
      sessionBookingStep s sess days dry false send acc b
        = { acc with skipped := acc.skipped + 1 }) ∨
    (acc.reminders.any (sessionReminderMatch sess.id b.email days) = false ∧
      ((dry = true ∧ sessionBookingStep s sess days dry false send acc b
          = { acc with sent := acc.sent + 1 }) ∨
       (dry = false ∧ send sess b = none ∧
        sessionBookingStep s sess days dry false send acc b
          = { acc with
              emails := acc.emails ++
                [⟨sess.id, b.email,
                  (if s.reminder_test_mode then s.reminder_test_email
                   else b.email)⟩],
              reminders := acc.reminders ++
                [⟨none, some sess.id, "session_reminder", some days,
                  (if s.reminder_test_mode then s.reminder_test_email
                   else b.email), true, ""⟩],
              sent := acc.sent + 1 }) ∨
       (dry = false ∧ ∃ msg, send sess b = some msg ∧
        sessionBookingStep s sess days dry false send acc b
          = { acc with
              reminders := acc.reminders ++
                [⟨none, some sess.id, "session_reminder", some days,
                  (if s.reminder_test_mode then s.reminder_test_email
                   else b.email), false, msg⟩],
              errors := acc.errors + 1 }))) := by
  unfold sessionBookingStep
  by_cases hany : acc.reminders.any (sessionReminderMatch sess.id b.email days) = true
  · rw [if_pos ⟨by simp, hany⟩]
    exact Or.inl ⟨hany, rfl⟩
  · have hanyf : acc.reminders.any (sessionReminderMatch sess.id b.email days)
        = false := by
      revert hany
      cases acc.reminders.any (sessionReminderMatch sess.id b.email days) <;> simp
    rw [if_neg (fun hc => hany hc.2)]
    by_cases hdry : dry = true
    · rw [if_pos hdry]
      exact Or.inr ⟨hanyf, Or.inl ⟨hdry, rfl⟩⟩
    · have hdryf : dry = false := by revert hdry; cases dry <;> simp
      rw [if_neg hdry]
      cases hsend : send sess b with
      | none =>
        simp only [hsend]
        exact Or.inr ⟨hanyf, Or.inr (Or.inl ⟨hdryf, trivial, trivial⟩)⟩
      | some msg =>
        simp only [hsend]
        exact Or.inr ⟨hanyf, Or.inr (Or.inr ⟨hdryf, msg, rfl, rfl⟩)⟩

/-- Counting presses through a one-element append (session side). -/
theorem sessionEmailsFor_append_one (j : ℕ) (em : String)
    (es : List SessionEmail) (e : SessionEmail) :
    sessionEmailsFor j em (es ++ [e]) =
      sessionEmailsFor j em es +
        (if (e.course_session_id == j && e.booking_email == em) = true
         then 1 else 0) := by
  unfold sessionEmailsFor
  rw [List.filter_append, List.length_append]
  congr 1
  by_cases hpe : (e.course_session_id == j && e.booking_email == em) = true <;>
    simp [List.filter, hpe]

/-- A session-reminder booking iteration only ever appends to the
`EmailReminder` table. -/
theorem sessionBookingStep_mono (s : SiteSettings) (sess : CourseSession)
    (days : ℤ) (dry : Bool) (send : CourseSession → Booking → Option String)
    (acc : SessionBatchState) (b : Booking) (r : EmailReminder)
    (hr : r ∈ acc.reminders) :
    r ∈ (sessionBookingStep s sess days dry false send acc b).reminders := by
  rcases sessionBookingStep_spec s sess days dry send acc b with
    ⟨_, he⟩ | ⟨_, ⟨_, he⟩ | ⟨_, _, he⟩ | ⟨_, _, _, he⟩⟩
  · rw [he]; exact hr
  · rw [he]; exact hr
  · rw [he]; exact List.mem_append_left _ hr
  · rw [he]; exact List.mem_append_left _ hr

/-- Within one session, with a matching reminder row present, the booking
fold delivers no email for the `(session, booking email)` key and keeps
the row. -/
theorem sessionBookingFold_nokey (s : SiteSettings) (sess : CourseSession)
    (days : ℤ) (dry : Bool) (send : CourseSession → Booking → Option String) :
    ∀ (B : List Booking) (acc : SessionBatchState) (j : ℕ) (em : String)
      (r : EmailReminder),
      r ∈ acc.reminders → sessionReminderMatch j em days r = true →
      sessionEmailsFor j em
          (B.foldl (sessionBookingStep s sess days dry false send) acc).emails
        = sessionEmailsFor j em acc.emails ∧
      r ∈ (B.foldl (sessionBookingStep s sess days dry false send) acc).reminders := by
  intro B
  induction B with
  | nil => intro acc j em r hr _; exact ⟨rfl, hr⟩
  | cons b B ih =>
    intro acc j em r hr hm
    rw [List.foldl_cons]
    rcases sessionBookingStep_spec s sess days dry send acc b with
      ⟨_, he⟩ | ⟨hanyf, ⟨_, he⟩ | ⟨_, _, he⟩ | ⟨_, msg, _, he⟩⟩
    · rw [he]
      exact ih { acc with skipped := acc.skipped + 1 } j em r hr hm
    · rw [he]
      exact ih { acc with sent := acc.sent + 1 } j em r hr hm
    · rw [he]
      have hkey : ¬(((sess.id : ℕ) == j && b.email == em) = true) := by
        intro hkey
        simp only [Bool.and_eq_true, beq_iff_eq] at hkey
        obtain ⟨hj, hem⟩ := hkey
        subst hj; subst hem
        have : acc.reminders.any (sessionReminderMatch sess.id b.email days)
            = true := List.any_eq_true.mpr ⟨r, hr, hm⟩
        rw [hanyf] at this
        cases this
      obtain ⟨hcount, hmem⟩ := ih { acc with
          emails := acc.emails ++
            [⟨sess.id, b.email,
              (if s.reminder_test_mode then s.reminder_test_email else b.email)⟩],
          reminders := acc.reminders ++
            [⟨none, some sess.id, "session_reminder", some days,
              (if s.reminder_test_mode then s.reminder_test_email else b.email),
              true, ""⟩],
          sent := acc.sent + 1 } j em r (List.mem_append_left _ hr) hm
      refine ⟨?_, hmem⟩
      rw [hcount]
      dsimp only
      rw [sessionEmailsFor_append_one, if_neg (by simpa using hkey), Nat.add_zero]
    · rw [he]
      exact ih { acc with
          reminders := acc.reminders ++
            [⟨none, some sess.id, "session_reminder", some days,
              (if s.reminder_test_mode then s.reminder_test_email else b.email),
              false, msg⟩],
          errors := acc.errors + 1 } j em r (List.mem_append_left _ hr) hm

/-- A session iteration either just bumps the skip counter or folds the
booking iteration over some list of bookings. -/
theorem sessionStep_cases (s : SiteSettings) (sessions : List CourseSession)
    (bookings : List Booking) (days : ℤ) (dry : Bool)
    (send : CourseSession → Booking → Option String)
    (acc : SessionBatchState) (sess : CourseSession) :
    sessionStep s sessions bookings days dry false send acc sess
      = { acc with skipped := acc.skipped + 1 } ∨
    ∃ bs : List Booking,
      sessionStep s sessions bookings days dry false send acc sess
        = bs.foldl (sessionBookingStep s sess days dry false send) acc := by
  unfold sessionStep
  dsimp only
  split
  · exact Or.inl rfl
  · split
    · exact Or.inl rfl
    · exact Or.inr ⟨_, rfl⟩

/-- Folding the session iteration preserves the suppression property:
with a matching reminder row present, no email goes to that
`(session, booking email)` key. -/
theorem sessionFold_nokey (s : SiteSettings) (sessions : List CourseSession)
    (bookings : List Booking) (days : ℤ) (dry : Bool)
    (send : CourseSession → Booking → Option String) :
    ∀ (S : List CourseSession) (acc : SessionBatchState) (j : ℕ) (em : String)
      (r : EmailReminder),
      r ∈ acc.reminders → sessionReminderMatch j em days r = true →
      sessionEmailsFor j em
          (S.foldl (sessionStep s sessions bookings days dry false send) acc).emails
        = sessionEmailsFor j em acc.emails := by
  intro S
  induction S with
  | nil => intro acc j em r _ _; rfl
  | cons sess S ih =>
    intro acc j em r hr hm
    rw [List.foldl_cons]
    rcases sessionStep_cases s sessions bookings days dry send acc sess with
      he | ⟨bs, he⟩
    · rw [he]
      exact ih { acc with skipped := acc.skipped + 1 } j em r hr hm
    · rw [he]
      obtain ⟨hcount, hmem⟩ :=
        sessionBookingFold_nokey s sess days dry send bs acc j em r hr hm
      rw [ih _ j em r hmem hm, hcount]

/-- Batch-level suppression for session reminders: a reminder row matching
the `(session, recipient, offset)` key — successful or not — stops every
non-force run from emailing that key. -/
theorem send_session_reminders_nokey (s : SiteSettings)
    (sessions : List CourseSession) (bookings : List Booking)
    (rem0 : List EmailReminder) (today : ℤ) (dry : Bool)
    (send : CourseSession → Booking → Option String) (j : ℕ) (em : String)
    (r : EmailReminder) (hr : r ∈ rem0)
    (hm : sessionReminderMatch j em s.session_reminder_days_before r = true) :
    sessionEmailsFor j em
      (send_session_reminders s sessions bookings rem0 today dry false send).emails
      = 0 := by
  unfold send_session_reminders
  by_cases hen : s.session_reminder_enabled = true
  · rw [if_neg (not_not_intro hen)]
    by_cases hemp : (sortSessions (sessions.filter
        (fun t => t.date == today + s.session_reminder_days_before))).isEmpty = true
    · rw [if_pos hemp]; rfl
    · rw [if_neg hemp]
      exact sessionFold_nokey s sessions bookings s.session_reminder_days_before
        dry send _ ⟨rem0, [], 0, 0, 0⟩ j em r hr hm
  · rw [if_pos hen]; rfl

/-- C9: a failed reminder send still writes an `EmailReminder` row with
`successful = false` (shown concretely for both the payment and the
session batch), and because neither duplicate-suppression query filters on
the `successful` flag, any matching row — the failed one included —
makes every subsequent non-force run deliver zero emails for that
`(target, type, offset, recipient)` key. -/
theorem c9_failed_send_suppresses (s : SiteSettings)
    (payments : List CoursePayment) (reminders0 : List EmailReminder)
    (today : ℤ) (dry1 : Bool) (send1 : CoursePayment → Option String)
    (i : ℕ) (d : ℤ) (r : EmailReminder) (hr : r ∈ reminders0)
    (hk : paymentReminderMatch i d r = true)
    (sessions : List CourseSession) (bookings : List Booking)
    (sreminders0 : List EmailReminder) (today2 : ℤ) (dry2 : Bool)
    (send2 : CourseSession → Booking → Option String) (j : ℕ) (em : String)
    (r2 : EmailReminder) (hr2 : r2 ∈ sreminders0)
    (hk2 : sessionReminderMatch j em s.session_reminder_days_before r2 = true) :
    paymentEmailsFor i d
        (send_payment_reminders s payments reminders0 today dry1 false send1).emails
      = 0 ∧
    sessionEmailsFor j em
        (send_session_reminders s sessions bookings sreminders0 today2 dry2 false
          send2).emails
      = 0 ∧
    (send_payment_reminders siteSettingsDefault [pC9] [] 0 false false
        (fun _ => some "boom")).reminders
      = [⟨some 1, none, "payment_reminder", some 7, "ada@example.com",
          false, "boom"⟩] ∧
    (send_session_reminders siteSettingsDefault [sessC9] [bookingConfirmedEx]
        [] 0 false false (fun _ _ => some "boom")).reminders
      = [⟨none, some 1, "session_reminder", some 1, "grace@example.com",
          false, "boom"⟩] :=
  ⟨send_payment_reminders_nokey s payments reminders0 today dry1 send1 i d r
      hr hk,
   send_session_reminders_nokey s sessions bookings sreminders0 today2 dry2
      send2 j em r2 hr2 hk2,
   by decide, by decide⟩

/-- C9 witness: with the failed-send row for payment 1 at offset 7 in the
table, a later non-force run (whose transport would now succeed) still
delivers no email for that key. -/
theorem c9_failed_send_witness :
    paymentEmailsFor 1 7
      (send_payment_reminders siteSettingsDefault [pC9] [failedRecC9] 0 false
        false (fun _ => none)).emails = 0 :=
  (c9_failed_send_suppresses siteSettingsDefault [pC9] [failedRecC9] 0 false
    (fun _ => none) 1 7 failedRecC9 (List.mem_singleton_self _) (by decide)
    [sessC9] [bookingConfirmedEx] [failedSessRecC9] 0 false
    (fun _ _ => none) 1 "grace@example.com" failedSessRecC9
    (List.mem_singleton_self _) (by decide)).1

/-! ## SiteSettings singleton behaviour -/

/-- `find?` for the pk-1 row after the in-place map update of
`SiteSettings.save`. -/
theorem find?_map_update (s' : SiteSettings) (hs' : (s'.pk == some 1) = true)
    (db : List SiteSettings) :
    db.any (fun q => q.pk == some 1) = true →
    (db.map (fun q => if q.pk == some 1 then s' else q)).find?
      (fun q => q.pk == some 1) = some s' := by
  induction db with
  | nil => intro h; cases h
  | cons x xs ih =>
    intro h
    rw [List.map_cons]
    by_cases hx : (x.pk == some 1) = true
    · rw [if_pos hx]
      exact List.find?_cons_of_pos _ hs'
    · rw [if_neg hx]
      rw [List.find?_cons_of_neg _ (by simpa using hx)]
      apply ih
      have hxf : (x.pk == some 1) = false := by simpa using hx
      simp only [List.any_cons, hxf, Bool.false_or] at h
      exact h

/-- C10: the `SiteSettings` table behaves as a singleton — `save` always
writes the instance to primary key 1 regardless of its prior key,
`delete` is a no-op, and `load` returns the pk-1 row, creating it from the
field defaults when absent. -/
theorem c10_settings_singleton (s : SiteSettings) (db : List SiteSettings)
    (r : SiteSettings) :
    (SiteSettings.save s db).find? (fun q => q.pk == some 1)
      = some { s with pk := some 1 } ∧
    SiteSettings.delete s db = db ∧
    (SiteSettings.load db).1.pk = some 1 ∧
    (SiteSettings.load db).2.find? (fun q => q.pk == some 1)
      = some (SiteSettings.load db).1 ∧
    (db.find? (fun q => q.pk == some 1) = some r →
      SiteSettings.load db = (r, db)) ∧
    (db.find? (fun q => q.pk == some 1) = none →
      SiteSettings.load db =
        ({ siteSettingsDefault with pk := some 1 },
         db ++ [{ siteSettingsDefault with pk := some 1 }])) := by
  refine ⟨?_, rfl, ?_, ?_, ?_, ?_⟩
  · unfold SiteSettings.save
    by_cases h : db.any (fun q => q.pk == some 1) = true
    · rw [if_pos h]
      exact find?_map_update { s with pk := some 1 } rfl db h
    · rw [if_neg h]
      rw [List.find?_append]
      have hnone : db.find? (fun q => q.pk == some 1) = none := by
        rw [List.find?_eq_none]
        intro a ha hpa
        exact h (List.any_eq_true.mpr ⟨a, ha, hpa⟩)
      rw [hnone, Option.none_or]
      exact List.find?_cons_of_pos _ rfl
  · unfold SiteSettings.load
    cases hdb : db.find? (fun q => q.pk == some 1) with
    | some q =>
      simp only [hdb]
      simpa using List.find?_some hdb
    | none => simp only [hdb]
  · unfold SiteSettings.load
    cases hdb : db.find? (fun q => q.pk == some 1) with
    | some q =>
      simp only [hdb]
    | none =>
      simp only [hdb]
      rw [List.find?_append, hdb, Option.none_or]
      exact List.find?_cons_of_pos _ rfl
  · intro hsome
    unfold SiteSettings.load
    simp only [hsome]
  · intro hnone
    unfold SiteSettings.load
    simp only [hnone]

/-- C10 witness: loading from an empty table creates and returns the
default pk-1 row. -/
theorem c10_settings_witness :
    SiteSettings.load [] =
      ({ siteSettingsDefault with pk := some 1 },
       [{ siteSettingsDefault with pk := some 1 }]) :=
  (c10_settings_singleton siteSettingsDefault [] siteSettingsDefault).2.2.2.2.2 rfl

end HortusCognitor
